import Mathlib

/-!
Verification of the longitudinal vehicle model from
`Introduction_to_self_driving_cars/Longitudinal_Vehicle_Model.ipynb`.

The Python class `Vehicle` holds thirteen fixed physical parameters and five
mutable state variables, and exposes `step(throttle, alpha)` which advances
the state by one fixed sample interval, and `reset()` which restores the
initial state.  We embed the class shallowly as a Lean structure over ℚ
(exact rational arithmetic standing in for Python floats), with `step` a pure
function from the old vehicle to the new one.  The library call `np.sin` is
not part of the repository, so `step` takes the sine function as an explicit
argument `sin : ℚ → ℚ`; all concrete evaluations below use `alpha = 0`
together with the fact `sin 0 = 0`.
-/

/-- The `Vehicle` class: parameter fields (set in `__init__`, never written
by `step` or `reset`) followed by the five state fields and the sample time. -/
structure Vehicle where
  a_0 : ℚ
  a_1 : ℚ
  a_2 : ℚ
  GR : ℚ
  r_e : ℚ
  J_e : ℚ
  m : ℚ
  g : ℚ
  c_a : ℚ
  c_r1 : ℚ
  c : ℚ
  F_max : ℚ
  x : ℚ
  v : ℚ
  a : ℚ
  w_e : ℚ
  w_e_dot : ℚ
  sample_time : ℚ
deriving DecidableEq

namespace Vehicle

/-- The vehicle produced by `Vehicle.__init__`: the documented parameters and
the documented initial state (x=0, v=5, a=0, ω_e=100, ω̇_e=0), Δt=0.01. -/
def init : Vehicle :=
  { a_0 := 400
    a_1 := 0.1
    a_2 := -0.0002
    GR := 0.35
    r_e := 0.3
    J_e := 10
    m := 2000
    g := 9.81
    c_a := 1.36
    c_r1 := 0.01
    c := 10000
    F_max := 10000
    x := 0
    v := 5
    a := 0
    w_e := 100
    w_e_dot := 0
    sample_time := 0.01 }

/-- `reset()`: restores the five state variables, touching nothing else. -/
def reset (self : Vehicle) : Vehicle :=
  { self with x := 0, v := 5, a := 0, w_e := 100, w_e_dot := 0 }

/-- Engine torque, line `T_e = throttle * (self.a_0 + self.a_1*self.w_e +
self.a_2*self.w_e**2)` of `step`. -/
def T_e (self : Vehicle) (throttle : ℚ) : ℚ :=
  throttle * (self.a_0 + self.a_1 * self.w_e + self.a_2 * self.w_e ^ 2)

/-- Aerodynamic drag, line `F_areo = self.c_a * self.v**2` (the notebook
spells it `F_areo`). -/
def F_areo (self : Vehicle) : ℚ :=
  self.c_a * self.v ^ 2

/-- Rolling friction, line `R_x = self.c_r1 * self.v`. -/
def R_x (self : Vehicle) : ℚ :=
  self.c_r1 * self.v

/-- Gravitational load, line `F_g = self.m * self.g * np.sin(alpha)`. -/
def F_g (self : Vehicle) (sin : ℚ → ℚ) (alpha : ℚ) : ℚ :=
  self.m * self.g * sin alpha

/-- Total load force, line `F_load = F_areo + R_x + F_g`. -/
def F_load (self : Vehicle) (sin : ℚ → ℚ) (alpha : ℚ) : ℚ :=
  self.F_areo + self.R_x + self.F_g sin alpha

/-- The value stored into `self.w_e_dot`:
`(T_e - self.GR*self.r_e*F_load) / self.J_e`. -/
def w_e_dot_new (self : Vehicle) (sin : ℚ → ℚ) (throttle alpha : ℚ) : ℚ :=
  (self.T_e throttle - self.GR * self.r_e * self.F_load sin alpha) / self.J_e

/-- Wheel angular velocity, line `w_w = self.GR * self.w_e`. -/
def w_w (self : Vehicle) : ℚ :=
  self.GR * self.w_e

/-- Slip ratio, line `s = (w_w*self.r_e - self.v) / self.v`. -/
def s (self : Vehicle) : ℚ :=
  (self.w_w * self.r_e - self.v) / self.v

/-- Tire force: `self.c * s if abs(s) < 1 else self.F_max`. -/
def F_x (self : Vehicle) : ℚ :=
  if |self.s| < 1 then self.c * self.s else self.F_max

/-- The value stored into `self.a`: `(F_x - F_load) / self.m`. -/
def a_new (self : Vehicle) (sin : ℚ → ℚ) (alpha : ℚ) : ℚ :=
  (self.F_x - self.F_load sin alpha) / self.m

/-- `step(throttle, alpha)`: computes the derived quantities from the
pre-call state, then applies the update equations in the notebook's order:
`self.w_e += self.w_e_dot * self.sample_time`,
`self.v += self.a * self.sample_time`,
`self.x += (self.v * self.sample_time) - (0.5 * self.a * self.sample_time**2)`
(the position update reads the already-updated `self.v`). -/
def step (self : Vehicle) (sin : ℚ → ℚ) (throttle alpha : ℚ) : Vehicle :=
  let w_e_dot := self.w_e_dot_new sin throttle alpha
  let a := self.a_new sin alpha
  let w_e := self.w_e + w_e_dot * self.sample_time
  let v := self.v + a * self.sample_time
  let x := self.x + (v * self.sample_time - 0.5 * a * self.sample_time ^ 2)
  { self with x := x, v := v, a := a, w_e := w_e, w_e_dot := w_e_dot }

/-- The tuple of the thirteen parameter fields (everything `step` and `reset`
leave alone). -/
def params (self : Vehicle) :
    ℚ × ℚ × ℚ × ℚ × ℚ × ℚ × ℚ × ℚ × ℚ × ℚ × ℚ × ℚ × ℚ :=
  (self.a_0, self.a_1, self.a_2, self.GR, self.r_e, self.J_e, self.m,
   self.g, self.c_a, self.c_r1, self.c, self.F_max, self.sample_time)

/-- A driving loop: fold `step` over a list of (throttle, alpha) inputs. -/
def runSteps (sin : ℚ → ℚ) (self : Vehicle) (inputs : List (ℚ × ℚ)) : Vehicle :=
  inputs.foldl (fun vh p => vh.step sin p.1 p.2) self

/-- A vehicle with the documented parameters and an arbitrary state. -/
def stateWith (x0 v0 a0 w0 wd0 : ℚ) : Vehicle :=
  { init with x := x0, v := v0, a := a0, w_e := w0, w_e_dot := wd0 }

end Vehicle

/-- The sine function restricted to the inputs used in the concrete claims:
`np.sin(0)` is exactly `0.0`, so any model of sine sends 0 to 0. -/
def sinZero : ℚ → ℚ := fun _ => 0

namespace Vehicle

theorem step_x (self : Vehicle) (sin : ℚ → ℚ) (throttle alpha : ℚ) :
    (self.step sin throttle alpha).x =
      self.x + ((self.v + self.a_new sin alpha * self.sample_time) *
        self.sample_time - 0.5 * self.a_new sin alpha * self.sample_time ^ 2) :=
  rfl

theorem step_v (self : Vehicle) (sin : ℚ → ℚ) (throttle alpha : ℚ) :
    (self.step sin throttle alpha).v =
      self.v + self.a_new sin alpha * self.sample_time :=
  rfl

theorem step_a (self : Vehicle) (sin : ℚ → ℚ) (throttle alpha : ℚ) :
    (self.step sin throttle alpha).a = self.a_new sin alpha :=
  rfl

theorem step_w_e (self : Vehicle) (sin : ℚ → ℚ) (throttle alpha : ℚ) :
    (self.step sin throttle alpha).w_e =
      self.w_e + self.w_e_dot_new sin throttle alpha * self.sample_time :=
  rfl

theorem step_w_e_dot (self : Vehicle) (sin : ℚ → ℚ) (throttle alpha : ℚ) :
    (self.step sin throttle alpha).w_e_dot =
      self.w_e_dot_new sin throttle alpha :=
  rfl

theorem step_params (self : Vehicle) (sin : ℚ → ℚ) (throttle alpha : ℚ) :
    (self.step sin throttle alpha).params = self.params :=
  rfl

theorem runSteps_params (sin : ℚ → ℚ) (inputs : List (ℚ × ℚ)) :
    ∀ self : Vehicle, (runSteps sin self inputs).params = self.params := by
  induction inputs with
  | nil => intro self; rfl
  | cons p rest ih =>
      intro self
      have h1 : runSteps sin self (p :: rest) =
          runSteps sin (self.step sin p.1 p.2) rest := rfl
      rw [h1, ih (self.step sin p.1 p.2), step_params]

end Vehicle

/-- Claim C1, counterexample: from the documented initial state, one call to
`step(0.4, 0)` leaves the position at exactly 0.05024914875, which is more
than 1/10000 away from the value 0.05041 stated by the claim, so the stated
post-call position is not reproducible even to four decimal places. -/
theorem step_golden_x_refuted :
    (Vehicle.init.step sinZero 0.4 0).x = 0.05024914875 ∧
    1/10000 < |(Vehicle.init.step sinZero 0.4 0).x - 0.05041| := by
  norm_num [Vehicle.step, Vehicle.a_new, Vehicle.F_x, Vehicle.s, Vehicle.w_w,
    Vehicle.F_load, Vehicle.F_areo, Vehicle.R_x, Vehicle.F_g, Vehicle.T_e,
    Vehicle.w_e_dot_new, Vehicle.init, sinZero, abs]

/-- Claim C1 (amended): from the documented initial state with Δt=0.01, a
single call to `step(0.4, 0)` produces the intermediates T_e=163.2,
F_aero=34, R_x=0.05, F_g=0, F_load=34.05, ω̇_e≈15.962, ω_w=35, s=1.1 (so the
saturated branch applies and F_x=10000), a≈4.983, and the post-call state
ω_e→100.1596, v→5.04983, x→0.05025 (exactly 0.05024914875; the claim's
0.05041 is refuted above), for every model of sine with sin 0 = 0. -/
theorem step_golden_run (sin : ℚ → ℚ) (h : sin 0 = 0) :
    Vehicle.init.T_e 0.4 = 163.2 ∧
    Vehicle.init.F_areo = 34 ∧
    Vehicle.init.R_x = 0.05 ∧
    Vehicle.init.F_g sin 0 = 0 ∧
    Vehicle.init.F_load sin 0 = 34.05 ∧
    |Vehicle.init.w_e_dot_new sin 0.4 0 - 15.962| < 1/1000 ∧
    Vehicle.init.w_w = 35 ∧
    Vehicle.init.s = 1.1 ∧
    1 ≤ |Vehicle.init.s| ∧
    Vehicle.init.F_x = 10000 ∧
    |Vehicle.init.a_new sin 0 - 4.983| < 1/1000 ∧
    |(Vehicle.init.step sin 0.4 0).w_e - 100.1596| < 1/10000 ∧
    |(Vehicle.init.step sin 0.4 0).v - 5.04983| < 1/100000 ∧
    |(Vehicle.init.step sin 0.4 0).x - 0.05025| < 1/100000 := by
  norm_num [Vehicle.step, Vehicle.a_new, Vehicle.F_x, Vehicle.s, Vehicle.w_w,
    Vehicle.F_load, Vehicle.F_areo, Vehicle.R_x, Vehicle.F_g, Vehicle.T_e,
    Vehicle.w_e_dot_new, Vehicle.init, h, abs]

/-- Witness for the amended claim C1 at the concrete sine model `sinZero`. -/
theorem step_golden_run_witness :
    sinZero 0 = 0 ∧
    (Vehicle.init.T_e 0.4 = 163.2 ∧
     Vehicle.init.F_areo = 34 ∧
     Vehicle.init.R_x = 0.05 ∧
     Vehicle.init.F_g sinZero 0 = 0 ∧
     Vehicle.init.F_load sinZero 0 = 34.05 ∧
     |Vehicle.init.w_e_dot_new sinZero 0.4 0 - 15.962| < 1/1000 ∧
     Vehicle.init.w_w = 35 ∧
     Vehicle.init.s = 1.1 ∧
     1 ≤ |Vehicle.init.s| ∧
     Vehicle.init.F_x = 10000 ∧
     |Vehicle.init.a_new sinZero 0 - 4.983| < 1/1000 ∧
     |(Vehicle.init.step sinZero 0.4 0).w_e - 100.1596| < 1/10000 ∧
     |(Vehicle.init.step sinZero 0.4 0).v - 5.04983| < 1/100000 ∧
     |(Vehicle.init.step sinZero 0.4 0).x - 0.05025| < 1/100000) :=
  ⟨rfl, step_golden_run sinZero rfl⟩

/-- Claim C2: for every pre-call state with v ≠ 0 and every input pair,
the stored fields ω̇_e and a after the call equal the derived quantities
computed from the pre-update state by the documented formulas, including the
slip-ratio saturation policy for the tire force. -/
theorem step_stores_derived (sin : ℚ → ℚ) (veh : Vehicle) (throttle alpha : ℚ)
    (h : veh.v ≠ 0) :
    (veh.step sin throttle alpha).w_e_dot =
      (throttle * (veh.a_0 + veh.a_1 * veh.w_e + veh.a_2 * veh.w_e ^ 2) -
        veh.GR * veh.r_e *
          (veh.c_a * veh.v ^ 2 + veh.c_r1 * veh.v + veh.m * veh.g * sin alpha)) /
        veh.J_e ∧
    (veh.step sin throttle alpha).a =
      ((if |(veh.GR * veh.w_e * veh.r_e - veh.v) / veh.v| < 1 then
          veh.c * ((veh.GR * veh.w_e * veh.r_e - veh.v) / veh.v)
        else veh.F_max) -
        (veh.c_a * veh.v ^ 2 + veh.c_r1 * veh.v + veh.m * veh.g * sin alpha)) /
        veh.m :=
  ⟨rfl, rfl⟩

/-- Witness for claim C2 at the initial state (v = 5 ≠ 0), throttle 0.4,
alpha 0. -/
theorem step_stores_derived_witness :
    Vehicle.init.v ≠ 0 ∧
    ((Vehicle.init.step sinZero 0.4 0).w_e_dot =
      (0.4 * (Vehicle.init.a_0 + Vehicle.init.a_1 * Vehicle.init.w_e +
          Vehicle.init.a_2 * Vehicle.init.w_e ^ 2) -
        Vehicle.init.GR * Vehicle.init.r_e *
          (Vehicle.init.c_a * Vehicle.init.v ^ 2 +
            Vehicle.init.c_r1 * Vehicle.init.v +
            Vehicle.init.m * Vehicle.init.g * sinZero 0)) /
        Vehicle.init.J_e ∧
    (Vehicle.init.step sinZero 0.4 0).a =
      ((if |(Vehicle.init.GR * Vehicle.init.w_e * Vehicle.init.r_e -
              Vehicle.init.v) / Vehicle.init.v| < 1 then
          Vehicle.init.c * ((Vehicle.init.GR * Vehicle.init.w_e *
            Vehicle.init.r_e - Vehicle.init.v) / Vehicle.init.v)
        else Vehicle.init.F_max) -
        (Vehicle.init.c_a * Vehicle.init.v ^ 2 +
          Vehicle.init.c_r1 * Vehicle.init.v +
          Vehicle.init.m * Vehicle.init.g * sinZero 0)) /
        Vehicle.init.m) :=
  ⟨by norm_num [Vehicle.init],
   step_stores_derived sinZero Vehicle.init 0.4 0 (by norm_num [Vehicle.init])⟩

/-- Claim C3: step applies the explicit Euler update in the exact order
ω_e += ω̇_e·Δt, then v += a·Δt, then x += v·Δt − 0.5·a·Δt², with the
position increment computed from the already-updated (post-step) velocity. -/
theorem step_update_order (sin : ℚ → ℚ) (veh : Vehicle) (throttle alpha : ℚ) :
    (veh.step sin throttle alpha).w_e =
      veh.w_e + (veh.step sin throttle alpha).w_e_dot * veh.sample_time ∧
    (veh.step sin throttle alpha).v =
      veh.v + (veh.step sin throttle alpha).a * veh.sample_time ∧
    (veh.step sin throttle alpha).x =
      veh.x + ((veh.step sin throttle alpha).v * veh.sample_time -
        0.5 * (veh.step sin throttle alpha).a * veh.sample_time ^ 2) :=
  ⟨rfl, rfl, rfl⟩

/-- Claim C9: for every pre-call state and every input pair, step leaves
every parameter field unchanged — a0, a1, a2, GR, r_e, J_e, m, g, c_a, c_r1,
c, F_max and sample_time are identical before and after the call, so Δt
stays fixed for the life of a run; only the five state fields may change. -/
theorem step_preserves_params (sin : ℚ → ℚ) (veh : Vehicle)
    (throttle alpha : ℚ) :
    (veh.step sin throttle alpha).a_0 = veh.a_0 ∧
    (veh.step sin throttle alpha).a_1 = veh.a_1 ∧
    (veh.step sin throttle alpha).a_2 = veh.a_2 ∧
    (veh.step sin throttle alpha).GR = veh.GR ∧
    (veh.step sin throttle alpha).r_e = veh.r_e ∧
    (veh.step sin throttle alpha).J_e = veh.J_e ∧
    (veh.step sin throttle alpha).m = veh.m ∧
    (veh.step sin throttle alpha).g = veh.g ∧
    (veh.step sin throttle alpha).c_a = veh.c_a ∧
    (veh.step sin throttle alpha).c_r1 = veh.c_r1 ∧
    (veh.step sin throttle alpha).c = veh.c ∧
    (veh.step sin throttle alpha).F_max = veh.F_max ∧
    (veh.step sin throttle alpha).sample_time = veh.sample_time :=
  ⟨rfl, rfl, rfl, rfl, rfl, rfl, rfl, rfl, rfl, rfl, rfl, rfl, rfl⟩

/-- Claim C6: after any finite sequence of step calls, `reset()` restores
the state fields exactly to (x=0, v=5, a=0, ω_e=100, ω̇_e=0) and leaves
every parameter field (collected in `Vehicle.params`) unchanged. -/
theorem reset_restores (sin : ℚ → ℚ) (veh : Vehicle)
    (inputs : List (ℚ × ℚ)) :
    (Vehicle.runSteps sin veh inputs).reset.x = 0 ∧
    (Vehicle.runSteps sin veh inputs).reset.v = 5 ∧
    (Vehicle.runSteps sin veh inputs).reset.a = 0 ∧
    (Vehicle.runSteps sin veh inputs).reset.w_e = 100 ∧
    (Vehicle.runSteps sin veh inputs).reset.w_e_dot = 0 ∧
    (Vehicle.runSteps sin veh inputs).reset.params = veh.params := by
  refine ⟨rfl, rfl, rfl, rfl, rfl, ?_⟩
  have h1 : (Vehicle.runSteps sin veh inputs).reset.params =
      (Vehicle.runSteps sin veh inputs).params := rfl
  rw [h1, Vehicle.runSteps_params]

/-- Claim C10: for every step call with pre-call v ≠ 0, the position
increment equals the sample interval times the average of the pre-step and
post-step velocities, i.e. the position formula coincides with trapezoidal
integration of velocity over the step. -/
theorem step_x_trapezoidal (sin : ℚ → ℚ) (veh : Vehicle)
    (throttle alpha : ℚ) (h : veh.v ≠ 0) :
    (veh.step sin throttle alpha).x - veh.x =
      veh.sample_time * (veh.v + (veh.step sin throttle alpha).v) / 2 := by
  rw [Vehicle.step_x, Vehicle.step_v]
  ring

/-- Witness for claim C10 at the initial state (v = 5 ≠ 0), throttle 0.4,
alpha 0. -/
theorem step_x_trapezoidal_witness :
    Vehicle.init.v ≠ 0 ∧
    (Vehicle.init.step sinZero 0.4 0).x - Vehicle.init.x =
      Vehicle.init.sample_time *
        (Vehicle.init.v + (Vehicle.init.step sinZero 0.4 0).v) / 2 :=
  ⟨by norm_num [Vehicle.init],
   step_x_trapezoidal sinZero Vehicle.init 0.4 0 (by norm_num [Vehicle.init])⟩

/-- Claim C8: for every step call with a non-negative sample time in which
the velocity is non-negative both before and after the call, the position is
non-decreasing across the call. -/
theorem step_x_nondecreasing (sin : ℚ → ℚ) (veh : Vehicle)
    (throttle alpha : ℚ) (hdt : 0 ≤ veh.sample_time) (hv : 0 ≤ veh.v)
    (hv2 : 0 ≤ (veh.step sin throttle alpha).v) :
    veh.x ≤ (veh.step sin throttle alpha).x := by
  have key : (veh.step sin throttle alpha).x =
      veh.x + veh.sample_time *
        (veh.v + (veh.step sin throttle alpha).v) / 2 := by
    rw [Vehicle.step_x, Vehicle.step_v]
    ring
  have hsum : 0 ≤ veh.v + (veh.step sin throttle alpha).v := by linarith
  have hterm : 0 ≤ veh.sample_time *
      (veh.v + (veh.step sin throttle alpha).v) / 2 :=
    div_nonneg (mul_nonneg hdt hsum) (by norm_num)
  rw [key]
  linarith

/-- Witness for claim C8 at the initial state, throttle 0.4, alpha 0. -/
theorem step_x_nondecreasing_witness :
    0 ≤ Vehicle.init.sample_time ∧ 0 ≤ Vehicle.init.v ∧
    0 ≤ (Vehicle.init.step sinZero 0.4 0).v ∧
    Vehicle.init.x ≤ (Vehicle.init.step sinZero 0.4 0).x :=
  ⟨by norm_num [Vehicle.init], by norm_num [Vehicle.init],
   by norm_num [Vehicle.step, Vehicle.a_new, Vehicle.F_x, Vehicle.s,
     Vehicle.w_w, Vehicle.F_load, Vehicle.F_areo, Vehicle.R_x, Vehicle.F_g,
     Vehicle.T_e, Vehicle.w_e_dot_new, Vehicle.init, sinZero, abs],
   step_x_nondecreasing sinZero Vehicle.init 0.4 0
     (by norm_num [Vehicle.init]) (by norm_num [Vehicle.init])
     (by norm_num [Vehicle.step, Vehicle.a_new, Vehicle.F_x, Vehicle.s,
       Vehicle.w_w, Vehicle.F_load, Vehicle.F_areo, Vehicle.R_x, Vehicle.F_g,
       Vehicle.T_e, Vehicle.w_e_dot_new, Vehicle.init, sinZero, abs])⟩

/-- Claim C4, counterexample: a state with v = 1/10 > 0 on which a single
`step(0, 0)` call increases the velocity (the slip ratio is saturated, so
F_x = F_max = 10000 pushes the vehicle forward), refuting the claim that
velocity monotonically decreases for every state with v > 0. -/
theorem coast_can_speed_up :
    (Vehicle.stateWith 0 (1/10) 0 100 0).v = 1/10 ∧
    (0 : ℚ) < 1/10 ∧
    (Vehicle.stateWith 0 (1/10) 0 100 0).v <
      ((Vehicle.stateWith 0 (1/10) 0 100 0).step sinZero 0 0).v := by
  norm_num [Vehicle.step, Vehicle.a_new, Vehicle.F_x, Vehicle.s, Vehicle.w_w,
    Vehicle.F_load, Vehicle.F_areo, Vehicle.R_x, Vehicle.F_g, Vehicle.T_e,
    Vehicle.w_e_dot_new, Vehicle.init, Vehicle.stateWith, sinZero, abs]

/-- Claim C4 (amended): with the documented parameters, for every state with
v > 0, ω_e > 0 and GR·ω_e·r_e < v (the wheel surface speed is below the
vehicle speed, so the slip ratio lies in (−1, 0) and the linear tire branch
applies), a call to `step(0, 0)` has zero engine torque, the stored
acceleration is driven purely by the tire and load forces (the
gravitational term vanishes since sin 0 = 0), and the velocity strictly
decreases over the step.  The original universal claim over all v > 0 is
refuted above, and the claim that v can never go below 0 fails for the same
reason (the tire force need not be small compared to v). -/
theorem coast_decelerates (sin : ℚ → ℚ) (x0 v0 a0 w0 wd0 : ℚ)
    (hsin : sin 0 = 0) (hv : 0 < v0) (hw : 0 < w0)
    (hs : (0.35 : ℚ) * w0 * 0.3 < v0) :
    (Vehicle.stateWith x0 v0 a0 w0 wd0).T_e 0 = 0 ∧
    ((Vehicle.stateWith x0 v0 a0 w0 wd0).step sin 0 0).a =
      ((Vehicle.stateWith x0 v0 a0 w0 wd0).F_x -
        ((Vehicle.stateWith x0 v0 a0 w0 wd0).F_areo +
          (Vehicle.stateWith x0 v0 a0 w0 wd0).R_x)) / 2000 ∧
    ((Vehicle.stateWith x0 v0 a0 w0 wd0).step sin 0 0).v < v0 := by
  have hs_eq : (Vehicle.stateWith x0 v0 a0 w0 wd0).s =
      (0.35 * w0 * 0.3 - v0) / v0 := rfl
  have hnum_pos : (0 : ℚ) < 0.35 * w0 * 0.3 := by
    have h035 : (0 : ℚ) < 0.35 := by norm_num
    have h03 : (0 : ℚ) < 0.3 := by norm_num
    exact mul_pos (mul_pos h035 hw) h03
  have hs_neg : (Vehicle.stateWith x0 v0 a0 w0 wd0).s < 0 := by
    rw [hs_eq]
    exact div_neg_of_neg_of_pos (by linarith) hv
  have hs_gt : (-1 : ℚ) < (Vehicle.stateWith x0 v0 a0 w0 wd0).s := by
    rw [hs_eq, lt_div_iff₀ hv]
    linarith
  have habs : |(Vehicle.stateWith x0 v0 a0 w0 wd0).s| < 1 :=
    abs_lt.mpr ⟨hs_gt, by linarith⟩
  have hFx : (Vehicle.stateWith x0 v0 a0 w0 wd0).F_x =
      10000 * (Vehicle.stateWith x0 v0 a0 w0 wd0).s := by
    have hc : (Vehicle.stateWith x0 v0 a0 w0 wd0).c = 10000 := rfl
    rw [Vehicle.F_x, if_pos habs, hc]
  have hFx_neg : (Vehicle.stateWith x0 v0 a0 w0 wd0).F_x < 0 := by
    rw [hFx]
    exact mul_neg_of_pos_of_neg (by norm_num) hs_neg
  have hFl : (Vehicle.stateWith x0 v0 a0 w0 wd0).F_load sin 0 =
      (Vehicle.stateWith x0 v0 a0 w0 wd0).F_areo +
        (Vehicle.stateWith x0 v0 a0 w0 wd0).R_x := by
    rw [Vehicle.F_load, Vehicle.F_g, hsin]
    ring
  have hFl_pos : 0 ≤ (Vehicle.stateWith x0 v0 a0 w0 wd0).F_load sin 0 := by
    rw [hFl]
    have h1 : (Vehicle.stateWith x0 v0 a0 w0 wd0).F_areo = 1.36 * v0 ^ 2 := rfl
    have h2 : (Vehicle.stateWith x0 v0 a0 w0 wd0).R_x = 0.01 * v0 := rfl
    rw [h1, h2]
    nlinarith
  have ha_neg : (Vehicle.stateWith x0 v0 a0 w0 wd0).a_new sin 0 < 0 := by
    rw [Vehicle.a_new]
    have hm : (Vehicle.stateWith x0 v0 a0 w0 wd0).m = 2000 := rfl
    rw [hm]
    exact div_neg_of_neg_of_pos (by linarith) (by norm_num)
  refine ⟨?_, ?_, ?_⟩
  · rw [Vehicle.T_e]
    ring
  · rw [Vehicle.step_a, Vehicle.a_new, hFl]
    rfl
  · rw [Vehicle.step_v]
    have hv0 : (Vehicle.stateWith x0 v0 a0 w0 wd0).v = v0 := rfl
    have hdt : (Vehicle.stateWith x0 v0 a0 w0 wd0).sample_time = 0.01 := rfl
    rw [hv0, hdt]
    nlinarith

/-- Witness for the amended claim C4 at the concrete state
(x=0, v=5, a=0, ω_e=10, ω̇_e=0): GR·ω_e·r_e = 1.05 < 5. -/
theorem coast_decelerates_witness :
    sinZero 0 = 0 ∧ (0 : ℚ) < 5 ∧ (0 : ℚ) < 10 ∧
    (0.35 : ℚ) * 10 * 0.3 < 5 ∧
    ((Vehicle.stateWith 0 5 0 10 0).T_e 0 = 0 ∧
     ((Vehicle.stateWith 0 5 0 10 0).step sinZero 0 0).a =
       ((Vehicle.stateWith 0 5 0 10 0).F_x -
         ((Vehicle.stateWith 0 5 0 10 0).F_areo +
           (Vehicle.stateWith 0 5 0 10 0).R_x)) / 2000 ∧
     ((Vehicle.stateWith 0 5 0 10 0).step sinZero 0 0).v < 5) :=
  ⟨rfl, by norm_num, by norm_num, by norm_num,
   coast_decelerates sinZero 0 5 0 10 0 rfl (by norm_num) (by norm_num)
     (by norm_num)⟩
